import Mathlib

/-!
Shallow embedding of the space-game simulation core (`src/main.ts`).

Coordinates are modelled as rationals (the source uses JS numbers and the
arithmetic performed on them is `+`, `-` and division by 2, which is exact).
Mutable class state becomes immutable structures with explicit update
functions; the per-frame collision passes, which mutate arrays in place via
index loops and `splice`, become index-carrying recursive functions that
mirror the loops exactly, including the stale loop variables.
-/

inductive PlayerDirection
  | up
  | left
  | down
  | right

/-- Geometry of a `HitBox` (the `HitBoxOptions` record minus the rendering
context): position and extent of an axis-aligned rectangle. -/
structure HitBox where
  x : ℚ
  y : ℚ
  w : ℚ
  h : ℚ

/-- `HitBox.collision` from the source: strict AABB overlap test. -/
def HitBox.collision (a b : HitBox) : Bool :=
  decide (a.x < b.x + b.w) && decide (a.x + a.w > b.x) &&
    decide (a.y < b.y + b.h) && decide (a.y + a.h > b.y)

/-- `PlayerWeaponShot._size` (fixed 5). -/
def shotSize : ℚ := 5

/-- `PlayerWeaponShot._speed` (fixed 3). -/
def shotSpeed : ℚ := 3

/-- A fired projectile: the `PlayerWeaponShotOptions` fields that the shot
mutates (`x`, `y`) plus its fixed direction, the weapon default width it was
created with, and its hitbox. -/
structure PlayerWeaponShot where
  x : ℚ
  y : ℚ
  direction : PlayerDirection
  defaultWeaponWidth : ℚ
  hitbox : HitBox

/-- The `PlayerWeaponShot` constructor: hitbox starts at the shot's origin
with width and height equal to the shot size. -/
def PlayerWeaponShot.new (x y : ℚ) (direction : PlayerDirection)
    (defaultWeaponWidth : ℚ) : PlayerWeaponShot :=
  { x, y, direction, defaultWeaponWidth, hitbox := ⟨x, y, shotSize, shotSize⟩ }

/-- `PlayerWeaponShot.update`: move by the fixed speed along the axis given
by the direction. The hitbox field is untouched (it is only reassigned in
`draw`). -/
def PlayerWeaponShot.update (s : PlayerWeaponShot) : PlayerWeaponShot :=
  match s.direction with
  | .up => { s with y := s.y - shotSpeed }
  | .left => { s with x := s.x - shotSpeed }
  | .down => { s with y := s.y + shotSpeed }
  | .right => { s with x := s.x + shotSpeed }

/-- The weapon: position/extent, the default (un-adjusted) extent, ammo,
the owned projectile list (newest first) and the hitbox. -/
structure PlayerWeapon where
  x : ℚ
  y : ℚ
  w : ℚ
  h : ℚ
  defaultWidth : ℚ
  defaultHeight : ℚ
  ammo : ℤ
  shots : List PlayerWeaponShot
  hitbox : HitBox

/-- The `PlayerWeapon` constructor: `_x = _y = 0`, `_w = playerWidth / 2`,
`_h = 15`, `_ammo = 3`, no shots, hitbox at the weapon rectangle. -/
def PlayerWeapon.new (playerWidth : ℚ) : PlayerWeapon :=
  { x := 0
    y := 0
    w := playerWidth / 2
    h := 15
    defaultWidth := playerWidth / 2
    defaultHeight := 15
    ammo := 3
    shots := []
    hitbox := ⟨0, 0, playerWidth / 2, 15⟩ }

/-- `PlayerWeapon.adjustWeapon`: reposition/resize the weapon rectangle and
its hitbox. -/
def PlayerWeapon.adjustWeapon (wp : PlayerWeapon) (x y wNew hNew : ℚ) :
    PlayerWeapon :=
  { wp with
    x := x
    y := y
    w := wNew
    h := hNew
    hitbox := ⟨x, y, wNew, hNew⟩ }

/-- `PlayerWeapon.fire`: no-op when `ammo <= 0`; otherwise unshift a new
shot at the weapon's current position and decrement ammo. -/
def PlayerWeapon.fire (wp : PlayerWeapon) (direction : PlayerDirection) :
    PlayerWeapon :=
  if wp.ammo ≤ 0 then wp
  else
    { wp with
      shots := PlayerWeaponShot.new wp.x wp.y direction wp.defaultWidth :: wp.shots
      ammo := wp.ammo - 1 }

/-- `PlayerWeapon.reload`: no-op when `ammo > 0`; otherwise reset ammo
to 3. -/
def PlayerWeapon.reload (wp : PlayerWeapon) : PlayerWeapon :=
  if 0 < wp.ammo then wp else { wp with ammo := 3 }

/-- `PlayerWeapon.update`: advance every owned shot one tick. -/
def PlayerWeapon.update (wp : PlayerWeapon) : PlayerWeapon :=
  { wp with shots := wp.shots.map PlayerWeaponShot.update }

/-- `Player._w` (fixed 60). -/
def playerWidth : ℚ := 60

/-- `Player._h` (fixed 60). -/
def playerHeight : ℚ := 60

/-- The player: spawn position, facing direction, owned weapon and body
hitbox. -/
structure Player where
  x : ℚ
  y : ℚ
  direction : PlayerDirection
  weapon : PlayerWeapon
  hitbox : HitBox

/-- `Player.handleDirectionChange`: recompute the weapon geometry for the
current facing direction (the four `adjustWeapon` calls of the source). -/
def Player.handleDirectionChange (p : Player) : Player :=
  match p.direction with
  | .up =>
      { p with
        weapon := p.weapon.adjustWeapon
          (p.x + p.weapon.defaultWidth - p.weapon.defaultHeight / 2)
          (p.y - playerHeight / 2)
          p.weapon.defaultHeight (playerHeight / 2) }
  | .left =>
      { p with
        weapon := p.weapon.adjustWeapon
          (p.x - playerWidth / 2)
          (p.y + p.weapon.defaultWidth - p.weapon.defaultHeight / 2)
          (playerWidth / 2) p.weapon.defaultHeight }
  | .down =>
      { p with
        weapon := p.weapon.adjustWeapon
          (p.x + p.weapon.defaultWidth - p.weapon.defaultHeight / 2)
          (p.y + playerHeight)
          p.weapon.defaultHeight (playerHeight / 2) }
  | .right =>
      { p with
        weapon := p.weapon.adjustWeapon
          (p.x + playerWidth)
          (p.y + p.weapon.defaultWidth - p.weapon.defaultHeight / 2)
          (playerWidth / 2) p.weapon.defaultHeight }

/-- The `Player` constructor on a canvas of the given dimensions: centered
body, direction `Up`, fresh weapon, hitbox at the body rectangle, then the
initial `handleDirectionChange`. -/
def Player.new (canvasW canvasH : ℚ) : Player :=
  Player.handleDirectionChange
    { x := (canvasW - playerWidth) / 2
      y := (canvasH - playerHeight) / 2
      direction := .up
      weapon := PlayerWeapon.new playerWidth
      hitbox :=
        ⟨(canvasW - playerWidth) / 2, (canvasH - playerHeight) / 2,
          playerWidth, playerHeight⟩ }

/-- `Player.update`: delegates to the weapon only; the body never moves. -/
def Player.update (p : Player) : Player :=
  { p with weapon := p.weapon.update }

/-- `Enemy._size` (fixed 25). -/
def enemySize : ℚ := 25

/-- An adversary: fixed direction chosen at creation, position and
hitbox. -/
structure Enemy where
  direction : PlayerDirection
  x : ℚ
  y : ℚ
  hitbox : HitBox

/-- The `Enemy` constructor: `_x = _y = 0` and a hitbox at `(0, 0)` of
extent `_size` by `_size`; the direction is the randomly drawn one, taken
here as a parameter. -/
def Enemy.new (direction : PlayerDirection) : Enemy :=
  { direction, x := 0, y := 0, hitbox := ⟨0, 0, enemySize, enemySize⟩ }

/-- `Enemy.update`: move exactly one unit along the fixed direction; the
hitbox field is untouched. -/
def Enemy.update (e : Enemy) : Enemy :=
  match e.direction with
  | .up => { e with y := e.y - 1 }
  | .left => { e with x := e.x - 1 }
  | .down => { e with y := e.y + 1 }
  | .right => { e with x := e.x + 1 }

/-- The hitbox reassignment performed by `Enemy.draw`: the hitbox `x`/`y`
are set to the direction-dependent screen-edge offset of the drawn
rectangle; width and height are not reassigned. -/
def Enemy.drawHitbox (e : Enemy) (canvasW canvasH : ℚ) : Enemy :=
  match e.direction with
  | .up =>
      { e with
        hitbox := { e.hitbox with
          x := e.x + canvasW / 2 - enemySize + enemySize / 2
          y := e.y + canvasH - enemySize } }
  | .left =>
      { e with
        hitbox := { e.hitbox with
          x := e.x + canvasW - enemySize + enemySize / 2
          y := e.y + canvasH / 2 - enemySize + enemySize / 2 } }
  | .down =>
      { e with
        hitbox := { e.hitbox with
          x := e.x + canvasW / 2 - enemySize + enemySize / 2
          y := e.y - enemySize } }
  | .right =>
      { e with
        hitbox := { e.hitbox with
          x := e.x - enemySize + enemySize / 2
          y := e.y + canvasH / 2 - enemySize + enemySize / 2 } }

/-- The simulation state: the player, the adversary list (newest first) and
the game-over flag. -/
structure SpaceGame where
  player : Player
  enemies : List Enemy
  gameOver : Bool

/-- One spawn event, the body of `enemiesSpawnLoop`: unshift the new enemy,
then pop the last entry if the length has reached 20. -/
def spawnStep (e : Enemy) (es : List Enemy) : List Enemy :=
  let grown := e :: es
  if 20 ≤ grown.length then grown.dropLast else grown

/-- The adversary list after `n` spawn events starting from the empty list,
the `n`-th spawned enemy having direction `dirs n`. -/
def spawnSeq (dirs : ℕ → PlayerDirection) : ℕ → List Enemy
  | 0 => []
  | n + 1 => spawnStep (Enemy.new (dirs n)) (spawnSeq dirs n)

/-- The inner `j` loop of `handleShotEnemyCollision`. The JS loop variable
`shot` is read from the array only at the top of the outer iteration, so a
stale value persists here after a splice; `shot` is therefore a parameter
fixed for the whole inner loop, exactly as in the source. On a hit both
`shots.splice(i, 1)` and `enemies.splice(j, 1)` run, and `j` keeps
advancing over the shortened array. -/
def shotEnemyInner (shot : PlayerWeaponShot) (i : ℕ)
    (shots : List PlayerWeaponShot) (enemies : List Enemy) (j : ℕ) :
    List PlayerWeaponShot × List Enemy :=
  if hj : j < enemies.length then
    let enemy := enemies.get ⟨j, hj⟩
    if shot.hitbox.collision enemy.hitbox then
      shotEnemyInner shot i (shots.eraseIdx i) (enemies.eraseIdx j) (j + 1)
    else
      shotEnemyInner shot i shots enemies (j + 1)
  else (shots, enemies)
termination_by enemies.length - j
decreasing_by
  · have := List.length_eraseIdx_le enemies j
    simp [List.length_eraseIdx] at *
    omega
  · omega

/-- Auxiliary bound on the inner loop, needed for the termination of the
outer loop: the inner loop never lengthens the shot list (it only applies
`eraseIdx`). -/
theorem shotEnemyInner_fst_length_le :
    ∀ (n : ℕ) (shot : PlayerWeaponShot) (i : ℕ)
      (shots : List PlayerWeaponShot) (enemies : List Enemy) (j : ℕ),
      enemies.length - j ≤ n →
      (shotEnemyInner shot i shots enemies j).1.length ≤ shots.length := by
  intro n
  induction n with
  | zero =>
    intro shot i shots enemies j hn
    rw [shotEnemyInner]
    have hj : ¬ j < enemies.length := by omega
    simp [hj]
  | succ n ih =>
    intro shot i shots enemies j hn
    rw [shotEnemyInner]
    by_cases hj : j < enemies.length
    · simp only [hj, dif_pos]
      by_cases hc : shot.hitbox.collision (enemies.get ⟨j, hj⟩).hitbox = true
      · simp only [hc, if_pos]
        refine le_trans (ih shot i _ _ _ ?_) (List.length_eraseIdx_le shots i)
        have := List.length_eraseIdx_le enemies j
        simp [List.length_eraseIdx] at *
        omega
      · simp only [hc, if_neg, Bool.not_eq_true]
        exact ih shot i shots enemies (j + 1) (by omega)
    · simp [hj]

/-- The outer `i` loop of `handleShotEnemyCollision`: read the shot at
index `i` (the loop guard keeps the read in bounds), run the inner loop
over all enemies, then advance `i` over the possibly shortened shot
list. -/
def shotEnemyOuter (shots : List PlayerWeaponShot) (enemies : List Enemy)
    (i : ℕ) : List PlayerWeaponShot × List Enemy :=
  if hi : i < shots.length then
    let r := shotEnemyInner (shots.get ⟨i, hi⟩) i shots enemies 0
    shotEnemyOuter r.1 r.2 (i + 1)
  else (shots, enemies)
termination_by shots.length - i
decreasing_by
  have := shotEnemyInner_fst_length_le enemies.length (shots.get ⟨i, hi⟩) i
    shots enemies 0 (by omega)
  omega

/-- `SpaceGame.handleShotEnemyCollision`: the projectile-vs-adversary
pass. -/
def SpaceGame.handleShotEnemyCollision (g : SpaceGame) : SpaceGame :=
  let r := shotEnemyOuter g.player.weapon.shots g.enemies 0
  { g with
    player := { g.player with weapon := { g.player.weapon with shots := r.1 } }
    enemies := r.2 }

/-- The shared shape of the two game-over passes: scan the enemy list in
order against a fixed hitbox, setting the flag on any overlap (`go` is the
running value of the mutable `_gameOver` flag). -/
def gameOverScan (hb : HitBox) (es : List Enemy) (go : Bool) : Bool :=
  match es with
  | [] => go
  | e :: rest => gameOverScan hb rest (if hb.collision e.hitbox then true else go)

/-- `SpaceGame.handlePlayerEnemyCollision`: the actor-vs-adversary pass. -/
def SpaceGame.handlePlayerEnemyCollision (g : SpaceGame) : SpaceGame :=
  { g with gameOver := gameOverScan g.player.hitbox g.enemies g.gameOver }

/-- `SpaceGame.handlePlayerWeaponEnemyCollision`: the weapon-vs-adversary
pass. -/
def SpaceGame.handlePlayerWeaponEnemyCollision (g : SpaceGame) : SpaceGame :=
  { g with gameOver := gameOverScan g.player.weapon.hitbox g.enemies g.gameOver }

/-- The collision-resolution block of `SpaceGame.update`: the three passes
in source order. -/
def SpaceGame.resolveCollisions (g : SpaceGame) : SpaceGame :=
  g.handleShotEnemyCollision.handlePlayerEnemyCollision.handlePlayerWeaponEnemyCollision

/-- `SpaceGame.update`: advance the player (hence the shots), advance every
enemy, then resolve collisions. -/
def SpaceGame.update (g : SpaceGame) : SpaceGame :=
  SpaceGame.resolveCollisions
    { g with player := g.player.update, enemies := g.enemies.map Enemy.update }

/-- A weapon command, for stating the ammo invariant over call
sequences. -/
inductive WeaponOp
  | fire (direction : PlayerDirection)
  | reload

/-- Apply one weapon command. -/
def PlayerWeapon.applyOp (wp : PlayerWeapon) : WeaponOp → PlayerWeapon
  | .fire d => wp.fire d
  | .reload => wp.reload

/-- Apply a sequence of weapon commands, oldest first. -/
def PlayerWeapon.applyOps (wp : PlayerWeapon) (ops : List WeaponOp) :
    PlayerWeapon :=
  ops.foldl PlayerWeapon.applyOp wp

/-- The game-over scan equals the flag or-ed with an existence test over
the enemy list. -/
theorem gameOverScan_eq_or (hb : HitBox) (es : List Enemy) (go : Bool) :
    gameOverScan hb es go = (go || es.any fun e => hb.collision e.hitbox) := by
  induction es generalizing go with
  | nil => simp [gameOverScan]
  | cons e rest ih =>
    cases hc : hb.collision e.hitbox <;> simp [gameOverScan, hc, ih]

/-- One weapon command keeps the ammo within `[0, 3]`. -/
theorem PlayerWeapon.applyOp_ammo_mem (wp : PlayerWeapon) (op : WeaponOp)
    (h0 : 0 ≤ wp.ammo) (h3 : wp.ammo ≤ 3) :
    0 ≤ (wp.applyOp op).ammo ∧ (wp.applyOp op).ammo ≤ 3 := by
  cases op with
  | fire d =>
    simp only [PlayerWeapon.applyOp, PlayerWeapon.fire]
    split
    · exact ⟨h0, h3⟩
    · refine ⟨?_, ?_⟩ <;> simp <;> omega
  | reload =>
    simp only [PlayerWeapon.applyOp, PlayerWeapon.reload]
    split
    · exact ⟨h0, h3⟩
    · refine ⟨?_, ?_⟩ <;> simp

/-- Any sequence of weapon commands keeps the ammo within `[0, 3]`. -/
theorem PlayerWeapon.applyOps_ammo_mem :
    ∀ (ops : List WeaponOp) (wp : PlayerWeapon), 0 ≤ wp.ammo → wp.ammo ≤ 3 →
      0 ≤ (wp.applyOps ops).ammo ∧ (wp.applyOps ops).ammo ≤ 3 := by
  intro ops
  induction ops with
  | nil => intro wp h0 h3; exact ⟨h0, h3⟩
  | cons op rest ih =>
    intro wp h0 h3
    have h := PlayerWeapon.applyOp_ammo_mem wp op h0 h3
    simpa [PlayerWeapon.applyOps] using ih (wp.applyOp op) h.1 h.2

/-- Length of the adversary list after `n` spawn events: it grows to 19 and
then stays there. -/
theorem spawnSeq_length (dirs : ℕ → PlayerDirection) :
    ∀ n, (spawnSeq dirs n).length = min n 19 := by
  intro n
  induction n with
  | zero => simp [spawnSeq]
  | succ n ih =>
    simp only [spawnSeq, spawnStep, List.length_cons]
    by_cases hc : 20 ≤ (spawnSeq dirs n).length + 1
    · rw [if_pos hc, List.length_dropLast, List.length_cons]
      omega
    · rw [if_neg hc, List.length_cons]
      omega

/-- Iterating `Enemy.update` on a `Down`-directed adversary adds `n` to its
`y` and fixes `x` and the direction. -/
theorem enemy_down_iterate :
    ∀ (n : ℕ) (e : Enemy), e.direction = PlayerDirection.down →
      (Enemy.update^[n] e).y = e.y + n ∧ (Enemy.update^[n] e).x = e.x ∧
        (Enemy.update^[n] e).direction = PlayerDirection.down := by
  intro n
  induction n with
  | zero => intro e h; simp [h]
  | succ n ih =>
    intro e h
    rw [Function.iterate_succ_apply]
    have hd : e.update.direction = PlayerDirection.down := by
      simp [Enemy.update, h]
    have hy : e.update.y = e.y + 1 := by simp [Enemy.update, h]
    have hx : e.update.x = e.x := by simp [Enemy.update, h]
    have hrec := ih e.update hd
    refine ⟨?_, ?_, hrec.2.2⟩
    · rw [hrec.1, hy]
      push_cast
      ring
    · rw [hrec.2.1, hx]

/-- Claim C1: for every simulation state, if some adversary's hitbox
overlaps the actor's body hitbox then the actor-vs-adversary pass sets the
game-over flag to true; likewise, if some adversary's hitbox overlaps the
weapon's hitbox then the weapon-vs-adversary pass sets the flag to true. -/
theorem C1_game_over_triggers (g : SpaceGame) (e : Enemy) (he : e ∈ g.enemies) :
    (g.player.hitbox.collision e.hitbox = true →
      g.handlePlayerEnemyCollision.gameOver = true) ∧
    (g.player.weapon.hitbox.collision e.hitbox = true →
      g.handlePlayerWeaponEnemyCollision.gameOver = true) := by
  constructor <;> intro hc <;>
    simp [SpaceGame.handlePlayerEnemyCollision,
      SpaceGame.handlePlayerWeaponEnemyCollision, gameOverScan_eq_or,
      List.any_eq_true] <;>
    exact Or.inr ⟨e, he, hc⟩

/-- Witness for C1: a concrete state with one adversary overlapping both
the body hitbox and the weapon hitbox; both passes report game over. -/
theorem C1_game_over_triggers_witness :
    (SpaceGame.handlePlayerEnemyCollision
      ⟨⟨0, 0, .up, ⟨0, 0, 15, 30, 30, 15, 3, [], ⟨0, 0, 15, 30⟩⟩, ⟨0, 0, 60, 60⟩⟩,
        [⟨.up, 0, 0, ⟨10, 10, 25, 25⟩⟩], false⟩).gameOver = true ∧
    (SpaceGame.handlePlayerWeaponEnemyCollision
      ⟨⟨0, 0, .up, ⟨0, 0, 15, 30, 30, 15, 3, [], ⟨0, 0, 15, 30⟩⟩, ⟨0, 0, 60, 60⟩⟩,
        [⟨.up, 0, 0, ⟨10, 10, 25, 25⟩⟩], false⟩).gameOver = true := by
  have h := C1_game_over_triggers
    ⟨⟨0, 0, .up, ⟨0, 0, 15, 30, 30, 15, 3, [], ⟨0, 0, 15, 30⟩⟩, ⟨0, 0, 60, 60⟩⟩,
      [⟨.up, 0, 0, ⟨10, 10, 25, 25⟩⟩], false⟩
    ⟨.up, 0, 0, ⟨10, 10, 25, 25⟩⟩ (by simp)
  exact ⟨h.1 (by norm_num [HitBox.collision]), h.2 (by norm_num [HitBox.collision])⟩

/-- Claim C2: from a fresh weapon the ammo stays within `[0, 3]` under any
command sequence; `fire` with zero ammo is the identity; `fire` with
positive ammo prepends exactly one shot and decrements the ammo by one;
`reload` with positive ammo is the identity; `reload` with zero ammo resets
the ammo to 3. -/
theorem C2_ammo_invariant :
    (∀ (pw : ℚ) (ops : List WeaponOp),
      0 ≤ ((PlayerWeapon.new pw).applyOps ops).ammo ∧
        ((PlayerWeapon.new pw).applyOps ops).ammo ≤ 3) ∧
    (∀ (wp : PlayerWeapon) (d : PlayerDirection), wp.ammo = 0 → wp.fire d = wp) ∧
    (∀ (wp : PlayerWeapon) (d : PlayerDirection), 0 < wp.ammo →
      (wp.fire d).shots =
          PlayerWeaponShot.new wp.x wp.y d wp.defaultWidth :: wp.shots ∧
        (wp.fire d).ammo = wp.ammo - 1) ∧
    (∀ wp : PlayerWeapon, 0 < wp.ammo → wp.reload = wp) ∧
    (∀ wp : PlayerWeapon, wp.ammo = 0 → wp.reload.ammo = 3) := by
  refine ⟨?_, ?_, ?_, ?_, ?_⟩
  · intro pw ops
    exact PlayerWeapon.applyOps_ammo_mem ops (PlayerWeapon.new pw)
      (by norm_num [PlayerWeapon.new]) (by norm_num [PlayerWeapon.new])
  · intro wp d h
    simp [PlayerWeapon.fire, h]
  · intro wp d h
    have hc : ¬ wp.ammo ≤ 0 := by omega
    simp [PlayerWeapon.fire, hc]
  · intro wp h
    simp [PlayerWeapon.reload, h]
  · intro wp h
    simp [PlayerWeapon.reload, h]

/-- Witness for C2: one fired shot from the fresh weapon keeps the ammo in
range, and `reload` on a weapon with full ammo is the identity. -/
theorem C2_ammo_invariant_witness :
    (0 ≤ ((PlayerWeapon.new 60).applyOps [WeaponOp.fire PlayerDirection.up]).ammo ∧
      ((PlayerWeapon.new 60).applyOps [WeaponOp.fire PlayerDirection.up]).ammo ≤ 3) ∧
    (⟨0, 0, 30, 15, 30, 15, 3, [], ⟨0, 0, 30, 15⟩⟩ : PlayerWeapon).reload =
      (⟨0, 0, 30, 15, 30, 15, 3, [], ⟨0, 0, 30, 15⟩⟩ : PlayerWeapon) :=
  ⟨C2_ammo_invariant.1 60 [WeaponOp.fire PlayerDirection.up],
    C2_ammo_invariant.2.2.2.1 _ (by decide)⟩

/-- Claim C4: the strict AABB overlap test is commutative, and two boxes
meeting exactly at a vertical edge (`a.x + a.w = b.x`) never collide. -/
theorem C4_collision_comm_strict (a b : HitBox) :
    a.collision b = b.collision a ∧
      (a.x + a.w = b.x → a.collision b = false) := by
  constructor
  · rw [Bool.eq_iff_iff]
    simp only [HitBox.collision, Bool.and_eq_true, decide_eq_true_eq, gt_iff_lt]
    tauto
  · intro h
    simp [HitBox.collision, h]

/-- Witness for C4: two concrete boxes sharing only the vertical edge
`x = 10` do not collide. -/
theorem C4_collision_comm_strict_witness :
    HitBox.collision ⟨0, 0, 10, 10⟩ ⟨10, 0, 10, 10⟩ = false :=
  (C4_collision_comm_strict ⟨0, 0, 10, 10⟩ ⟨10, 0, 10, 10⟩).2 (by norm_num)

/-- Claim C3: the adversary list never exceeds 20 entries after any number
of spawn events, and the 21st spawn event prepends the new adversary and
evicts exactly the oldest (tail) entry and no other, so the net length is
unchanged. -/
theorem C3_adversary_cap (dirs : ℕ → PlayerDirection) (n : ℕ) :
    (spawnSeq dirs n).length ≤ 20 ∧
      spawnSeq dirs 21 = Enemy.new (dirs 20) :: (spawnSeq dirs 20).dropLast ∧
      (spawnSeq dirs 21).length = (spawnSeq dirs 20).length := by
  have h20 : (spawnSeq dirs 20).length = 19 := by
    have := spawnSeq_length dirs 20
    omega
  refine ⟨?_, ?_, ?_⟩
  · have := spawnSeq_length dirs n
    omega
  · have h21 : spawnSeq dirs 21 =
        spawnStep (Enemy.new (dirs 20)) (spawnSeq dirs 20) := rfl
    rw [h21]
    simp only [spawnStep]
    rw [if_pos (by simp [h20])]
    exact List.dropLast_cons_of_ne_nil (List.length_pos.mp (by omega))
  · rw [spawnSeq_length, spawnSeq_length]
    omega

/-- Claim C9: once a spawn event has completed, the adversary list holds at
most 19 entries; a spawn on a 19-entry list prepends the new adversary,
immediately evicts the oldest, and finishes again at 19 entries. -/
theorem C9_post_spawn_length :
    (∀ (dirs : ℕ → PlayerDirection) (n : ℕ), (spawnSeq dirs n).length ≤ 19) ∧
    (∀ (e : Enemy) (es : List Enemy), es.length = 19 →
      spawnStep e es = e :: es.dropLast ∧ (spawnStep e es).length = 19) := by
  constructor
  · intro dirs n
    have := spawnSeq_length dirs n
    omega
  · intro e es h
    have hne : es ≠ [] := List.length_pos.mp (by omega)
    have hstep : spawnStep e es = e :: es.dropLast := by
      simp only [spawnStep]
      rw [if_pos (by simp [h])]
      exact List.dropLast_cons_of_ne_nil hne
    refine ⟨hstep, ?_⟩
    rw [hstep]
    simp [h]

/-- Witness for C9: a spawn onto a concrete 19-entry list prepends the new
adversary and drops the tail entry. -/
theorem C9_post_spawn_length_witness :
    spawnStep (Enemy.new PlayerDirection.down)
        (List.replicate 19 (Enemy.new PlayerDirection.up)) =
      Enemy.new PlayerDirection.down ::
        (List.replicate 19 (Enemy.new PlayerDirection.up)).dropLast :=
  (C9_post_spawn_length.2 (Enemy.new PlayerDirection.down)
    (List.replicate 19 (Enemy.new PlayerDirection.up)) (by simp)).1

/-- Claim C10: `Enemy.update` changes only the position fields, leaving the
hitbox (and the direction) untouched, and a newly constructed adversary has
its hitbox at `(0, 0)` with width and height 25 regardless of its
direction. -/
theorem C10_enemy_hitbox_only_draw :
    (∀ e : Enemy, e.update.hitbox = e.hitbox ∧ e.update.direction = e.direction) ∧
    (∀ d : PlayerDirection, (Enemy.new d).hitbox = ⟨0, 0, 25, 25⟩) := by
  constructor
  · intro e
    cases e with
    | mk d x y hb => cases d <;> simp [Enemy.update]
  · intro d
    simp [Enemy.new, enemySize]

/-- Claim C7: each `Enemy.update` moves the adversary exactly one unit
along its direction's axis and leaves the other coordinate unchanged; a
`Down`-directed adversary has, after 10 updates, its `y` increased by
exactly 10 and its `x` unchanged. -/
theorem C7_enemy_step (e : Enemy) :
    ((e.direction = PlayerDirection.up → e.update.y = e.y - 1 ∧ e.update.x = e.x) ∧
      (e.direction = PlayerDirection.down → e.update.y = e.y + 1 ∧ e.update.x = e.x) ∧
      (e.direction = PlayerDirection.left → e.update.x = e.x - 1 ∧ e.update.y = e.y) ∧
      (e.direction = PlayerDirection.right → e.update.x = e.x + 1 ∧ e.update.y = e.y)) ∧
    (e.direction = PlayerDirection.down →
      (Enemy.update^[10] e).y = e.y + 10 ∧ (Enemy.update^[10] e).x = e.x) := by
  constructor
  · refine ⟨?_, ?_, ?_, ?_⟩ <;> intro h <;> simp [Enemy.update, h]
  · intro h
    have hiter := enemy_down_iterate 10 e h
    refine ⟨?_, hiter.2.1⟩
    rw [hiter.1]
    norm_num

/-- Witness for C7: a concrete `Down`-directed adversary at `(3, 4)` ends
10 updates at `y = 14` with `x` still 3. -/
theorem C7_enemy_step_witness :
    (Enemy.update^[10] ⟨PlayerDirection.down, 3, 4, ⟨0, 0, 25, 25⟩⟩).y = 4 + 10 ∧
      (Enemy.update^[10] ⟨PlayerDirection.down, 3, 4, ⟨0, 0, 25, 25⟩⟩).x = 3 :=
  (C7_enemy_step ⟨PlayerDirection.down, 3, 4, ⟨0, 0, 25, 25⟩⟩).2 rfl

/-- Claim C6: each `PlayerWeaponShot.update` moves the shot exactly 3 units
along its direction's axis and leaves the other coordinate unchanged; the
actor spawned centered on an 800 by 600 field sits at `(370, 270)`, and
firing while facing `Up` creates a shot at muzzle `y = 240` whose `y` after
one update is exactly 237, three less than the muzzle `y`. -/
theorem C6_shot_update (s : PlayerWeaponShot) :
    ((s.direction = PlayerDirection.up → s.update.y = s.y - 3 ∧ s.update.x = s.x) ∧
      (s.direction = PlayerDirection.down → s.update.y = s.y + 3 ∧ s.update.x = s.x) ∧
      (s.direction = PlayerDirection.left → s.update.x = s.x - 3 ∧ s.update.y = s.y) ∧
      (s.direction = PlayerDirection.right → s.update.x = s.x + 3 ∧ s.update.y = s.y)) ∧
    ((Player.new 800 600).x = 370 ∧ (Player.new 800 600).y = 270 ∧
      ((Player.new 800 600).weapon.fire (Player.new 800 600).direction).shots.map
          (fun t => (t.y, t.update.y)) = [(240, 237)]) := by
  constructor
  · refine ⟨?_, ?_, ?_, ?_⟩ <;> intro h <;>
      simp [PlayerWeaponShot.update, h, shotSpeed]
  · refine ⟨?_, ?_, ?_⟩ <;>
      norm_num [Player.new, Player.handleDirectionChange, PlayerWeapon.new,
        PlayerWeapon.adjustWeapon, PlayerWeapon.fire, PlayerWeaponShot.new,
        PlayerWeaponShot.update, playerWidth, playerHeight, shotSpeed, shotSize]

/-- Witness for C6: a concrete `Up`-directed shot at `(100, 100)` moves to
`y = 97` with `x` unchanged after one update. -/
theorem C6_shot_update_witness :
    (PlayerWeaponShot.update ⟨100, 100, PlayerDirection.up, 30, ⟨100, 100, 5, 5⟩⟩).y =
        100 - 3 ∧
      (PlayerWeaponShot.update ⟨100, 100, PlayerDirection.up, 30, ⟨100, 100, 5, 5⟩⟩).x =
        100 :=
  (C6_shot_update ⟨100, 100, PlayerDirection.up, 30, ⟨100, 100, 5, 5⟩⟩).1.1 rfl

/-- Claim C5: in a state with exactly one shot and exactly one adversary
whose hitboxes overlap, the adversary overlapping neither the body nor the
weapon hitbox, one run of the collision-resolution block removes exactly
that shot and that adversary and leaves the game-over flag false. -/
theorem C5_collision_elimination (p : Player) (s : PlayerWeaponShot) (e : Enemy)
    (hs : p.weapon.shots = [s])
    (hc : s.hitbox.collision e.hitbox = true)
    (hp : p.hitbox.collision e.hitbox = false)
    (hw : p.weapon.hitbox.collision e.hitbox = false) :
    ((⟨p, [e], false⟩ : SpaceGame).resolveCollisions).player.weapon.shots = [] ∧
      ((⟨p, [e], false⟩ : SpaceGame).resolveCollisions).enemies = [] ∧
      ((⟨p, [e], false⟩ : SpaceGame).resolveCollisions).gameOver = false := by
  simp [SpaceGame.resolveCollisions, SpaceGame.handleShotEnemyCollision,
    SpaceGame.handlePlayerEnemyCollision, SpaceGame.handlePlayerWeaponEnemyCollision,
    shotEnemyOuter, shotEnemyInner, gameOverScan, hs, hc, List.eraseIdx]

/-- Witness for C5: concrete overlapping shot and adversary, adversary away
from the body and weapon hitboxes; the pass clears both lists and the flag
stays false. -/
theorem C5_collision_elimination_witness :
    ((⟨⟨0, 0, .up, ⟨0, 0, 15, 30, 30, 15, 2,
          [⟨200, 200, .up, 30, ⟨200, 200, 5, 5⟩⟩], ⟨0, 0, 15, 30⟩⟩,
        ⟨0, 0, 60, 60⟩⟩, [⟨.up, 0, 0, ⟨201, 201, 25, 25⟩⟩],
        false⟩ : SpaceGame).resolveCollisions).player.weapon.shots = [] ∧
      ((⟨⟨0, 0, .up, ⟨0, 0, 15, 30, 30, 15, 2,
          [⟨200, 200, .up, 30, ⟨200, 200, 5, 5⟩⟩], ⟨0, 0, 15, 30⟩⟩,
        ⟨0, 0, 60, 60⟩⟩, [⟨.up, 0, 0, ⟨201, 201, 25, 25⟩⟩],
        false⟩ : SpaceGame).resolveCollisions).enemies = [] ∧
      ((⟨⟨0, 0, .up, ⟨0, 0, 15, 30, 30, 15, 2,
          [⟨200, 200, .up, 30, ⟨200, 200, 5, 5⟩⟩], ⟨0, 0, 15, 30⟩⟩,
        ⟨0, 0, 60, 60⟩⟩, [⟨.up, 0, 0, ⟨201, 201, 25, 25⟩⟩],
        false⟩ : SpaceGame).resolveCollisions).gameOver = false :=
  C5_collision_elimination
    ⟨0, 0, .up, ⟨0, 0, 15, 30, 30, 15, 2,
      [⟨200, 200, .up, 30, ⟨200, 200, 5, 5⟩⟩], ⟨0, 0, 15, 30⟩⟩, ⟨0, 0, 60, 60⟩⟩
    ⟨200, 200, .up, 30, ⟨200, 200, 5, 5⟩⟩
    ⟨.up, 0, 0, ⟨201, 201, 25, 25⟩⟩
    rfl
    (by norm_num [HitBox.collision])
    (by norm_num [HitBox.collision])
    (by norm_num [HitBox.collision])

/-- Counterexample to claim C8 as stated: in every state with exactly one
shot and exactly two adversaries both overlapping it, the pass removes only
the first adversary, never both — after the first splice the inner loop
index has already advanced past the shortened array, so it exits. -/
theorem C8_two_adversaries_not_both_removed :
    ¬ ∃ (p : Player) (s : PlayerWeaponShot) (e1 e2 : Enemy) (go : Bool),
        p.weapon.shots = [s] ∧
        s.hitbox.collision e1.hitbox = true ∧
        s.hitbox.collision e2.hitbox = true ∧
        ((⟨p, [e1, e2], go⟩ : SpaceGame).handleShotEnemyCollision).enemies = [] := by
  rintro ⟨p, s, e1, e2, go, hs, h1, h2, hres⟩
  simp [SpaceGame.handleShotEnemyCollision, shotEnemyOuter, shotEnemyInner,
    hs, h1, List.eraseIdx] at hres

/-- Claim C8, amended: with one shot and three adversaries, the shot
overlapping the first and the third, one run of the pass removes both
overlapping adversaries even though the single shot was consumed on the
first hit — the stale loop variable keeps colliding with the remaining
entries (the second adversary is skipped by the index shift and survives
regardless of overlap). -/
theorem C8_stale_shot_double_removal (p : Player) (s : PlayerWeaponShot)
    (e1 e2 e3 : Enemy) (go : Bool)
    (hs : p.weapon.shots = [s])
    (h1 : s.hitbox.collision e1.hitbox = true)
    (h3 : s.hitbox.collision e3.hitbox = true) :
    ((⟨p, [e1, e2, e3], go⟩ : SpaceGame).handleShotEnemyCollision).player.weapon.shots
        = [] ∧
      ((⟨p, [e1, e2, e3], go⟩ : SpaceGame).handleShotEnemyCollision).enemies = [e2] := by
  simp [SpaceGame.handleShotEnemyCollision, shotEnemyOuter, shotEnemyInner,
    hs, h1, h3, List.eraseIdx]

/-- Witness for the amended C8: a concrete shot overlapping the first and
third of three adversaries; the pass deletes those two and keeps only the
middle one. -/
theorem C8_stale_shot_double_removal_witness :
    ((⟨⟨0, 0, .up, ⟨0, 0, 15, 30, 30, 15, 2,
          [⟨0, 0, .up, 30, ⟨0, 0, 5, 5⟩⟩], ⟨0, 0, 15, 30⟩⟩, ⟨0, 0, 60, 60⟩⟩,
        [⟨.up, 0, 0, ⟨1, 1, 25, 25⟩⟩, ⟨.up, 0, 0, ⟨500, 500, 25, 25⟩⟩,
          ⟨.up, 0, 0, ⟨2, 2, 25, 25⟩⟩],
        false⟩ : SpaceGame).handleShotEnemyCollision).player.weapon.shots = [] ∧
      ((⟨⟨0, 0, .up, ⟨0, 0, 15, 30, 30, 15, 2,
          [⟨0, 0, .up, 30, ⟨0, 0, 5, 5⟩⟩], ⟨0, 0, 15, 30⟩⟩, ⟨0, 0, 60, 60⟩⟩,
        [⟨.up, 0, 0, ⟨1, 1, 25, 25⟩⟩, ⟨.up, 0, 0, ⟨500, 500, 25, 25⟩⟩,
          ⟨.up, 0, 0, ⟨2, 2, 25, 25⟩⟩],
        false⟩ : SpaceGame).handleShotEnemyCollision).enemies =
        [⟨.up, 0, 0, ⟨500, 500, 25, 25⟩⟩] :=
  C8_stale_shot_double_removal
    ⟨0, 0, .up, ⟨0, 0, 15, 30, 30, 15, 2,
      [⟨0, 0, .up, 30, ⟨0, 0, 5, 5⟩⟩], ⟨0, 0, 15, 30⟩⟩, ⟨0, 0, 60, 60⟩⟩
    ⟨0, 0, .up, 30, ⟨0, 0, 5, 5⟩⟩
    ⟨.up, 0, 0, ⟨1, 1, 25, 25⟩⟩
    ⟨.up, 0, 0, ⟨500, 500, 25, 25⟩⟩
    ⟨.up, 0, 0, ⟨2, 2, 25, 25⟩⟩
    false
    rfl
    (by norm_num [HitBox.collision])
    (by norm_num [HitBox.collision])
